import Mathlib

/-!
Verification development for the SDL GPU OpenGL backend (deferred
command-recording variant, `src/gpu/opengl/SDL_gpu_opengl.c` together with
`SDL_gpu_glcommand.h` and `SDL_gpu_opengl.h`).

The C code is shallowly embedded: the command arena is a list of bytes
(`List Nat`), machine integers are `Nat`/`Int` with explicit `% 2^32` or
`% 2^64` where overflow matters, native GL calls become event lists, and
fallible operations return an explicit error component.
-/

namespace SDLGpuGL

/-! ## Command tags (`GLCMD_TYPE`, SDL_gpu_glcommand.h lines 34-66) -/

def CMD_NONE : Nat := 0
def CMD_START_RENDER_PASS : Nat := 1
def CMD_SET_PIPELINE : Nat := 2
def CMD_SET_VIEWPORT : Nat := 3
def CMD_SET_SCISSOR : Nat := 4
def CMD_SET_BLEND_CONSTANT : Nat := 5
def CMD_SET_BUFFER : Nat := 6
def CMD_SET_SAMPLER : Nat := 7
def CMD_SET_TEXTURE : Nat := 8
def CMD_SET_MESH : Nat := 9
def CMD_DRAW : Nat := 10
def CMD_DRAW_INDEXED : Nat := 11
def CMD_DRAW_INSTANCED : Nat := 12
def CMD_DRAW_INSTANCED_INDEXED : Nat := 13
def CMD_END_RENDER_PASS : Nat := 14
def CMD_START_BLIT_PASS : Nat := 15
def CMD_FILL_BUFFER : Nat := 16
def CMD_GENERATE_MIPMAP : Nat := 17
def CMD_COPY_TEXTURE : Nat := 18
def CMD_COPY_BUFFER : Nat := 19
def CMD_COPY_BUFFER_TO_TEXTURE_1D : Nat := 20
def CMD_COPY_BUFFER_TO_TEXTURE_2D : Nat := 21
def CMD_COPY_BUFFER_TO_TEXTURE_3D : Nat := 22
def CMD_COPY_TEXTURE_TO_BUFFER_1D : Nat := 23
def CMD_COPY_TEXTURE_TO_BUFFER_2D : Nat := 24
def CMD_COPY_TEXTURE_TO_BUFFER_3D : Nat := 25
def CMD_END_BLIT_PASS : Nat := 26
def CMD_COUNT : Nat := 27

/-! ## Arena records and the replay walker

Each recorded command is one fixed-layout struct written contiguously into
the arena: its first field is the tag, the rest of the struct is the
payload.  `paySize` maps a tag to the byte size of that payload (that is,
`sizeof(struct) - sizeof(tag)`); it is kept as an explicit parameter since
the concrete `sizeof` values are platform layout facts, while the walker of
`OPENGL_GpuSubmitCommandBuffer` only relies on advancing by each record's
exact size. -/

/-- One tagged command record as written into the arena by
`OPENGL_PushCommand`: the tag followed by the payload bytes of the
fixed-layout command struct. -/
structure GLRecord where
  tag : Nat
  payload : List Nat
deriving DecidableEq, Repr

/-- Byte image of one record in the arena: the tag, then the payload. -/
def encodeRecord (r : GLRecord) : List Nat :=
  r.tag :: r.payload

/-- Byte image of a whole recorded arena: the records written contiguously
in recording order (each `OPENGL_PushCommand` appends at `n_cmd`). -/
def encodeArena (rs : List GLRecord) : List Nat :=
  (rs.map encodeRecord).flatten

/-- A record is well formed for a given payload-size map when its tag is a
real command tag (strictly between `CMD_NONE` and `CMD_COUNT`) and its
payload has exactly the size of that command struct. -/
def RecordWF (paySize : Nat → Nat) (r : GLRecord) : Prop :=
  0 < r.tag ∧ r.tag < CMD_COUNT ∧ r.payload.length = paySize r.tag

instance (paySize : Nat → Nat) (r : GLRecord) : Decidable (RecordWF paySize r) := by
  unfold RecordWF; infer_instance

/-- The replay walker of `OPENGL_GpuSubmitCommandBuffer` (lines 1963-2135):
starting at offset 0 it reads one tag, stops on the sentinel `CMD_NONE`
(or `CMD_COUNT`), otherwise copies out that command's fixed-size payload,
dispatches it, and advances by the record's exact size.  The result is the
dispatched record sequence in walk order; `none` models the walker running
off the recorded bytes or meeting a tag outside the enum (which the C code
guards with assertions). -/
def replayArena (paySize : Nat → Nat) : List Nat → Option (List GLRecord)
  | [] => none
  | t :: rest =>
    if t = CMD_NONE ∨ t = CMD_COUNT then
      some []
    else if t < CMD_COUNT then
      match replayArena paySize (rest.drop (paySize t)) with
      | some rs => some (⟨t, rest.take (paySize t)⟩ :: rs)
      | none => none
    else
      none
termination_by l => l.length
decreasing_by
  simp only [List.length_drop, List.length_cons]
  omega

/-! ## The growable command arena and `OPENGL_PushCommand`

`OPENGL_GpuCommandBuffer` (SDL_gpu_opengl.h lines 47-64) owns a flexible
byte array `cmd[]` of `capacity_cmd` bytes holding `n_cmd` written bytes,
plus the encoding state (the render pass currently being recorded, whose
`driverdata` points at `currrent_render_pass_data` inside this very
allocation).  The allocation identity is modelled by a counter `allocId`
that `SDL_realloc` bumps; `pass_driverdata` is the allocation id the open
render pass's `driverdata` pointer refers to, so the pointer is valid
exactly when `pass_driverdata = allocId`. -/

/-- `SIZE_MAX`, the largest value of the C `size_t` used by
`SDL_size_add_overflow` / `SDL_size_mul_overflow`. -/
def SIZE_MAX : Nat := 2 ^ 64 - 1

/-- The two distinct failure exits of `OPENGL_PushCommand`: the three
size-computation overflow checks each return through `SDL_OutOfMemory()`
(which sets the out-of-memory error message), while a failed `SDL_realloc`
returns a bare `-1` with no error message set. -/
inductive PushFail where
  | sizeOverflow
  | reallocFail
deriving DecidableEq, Repr

/-- State of one `OPENGL_GpuCommandBuffer`: `cmd` is the byte content
written so far (`n_cmd = cmd.length`), `capacity_cmd` the arena capacity,
`allocId` the identity of the current heap allocation,
`current_render_pass` whether `encoding_state.current_render_pass` is
non-null, and `pass_driverdata` the allocation id that the open render
pass's `driverdata` back-pointer points into. -/
structure OPENGL_GpuCommandBuffer where
  capacity_cmd : Nat
  cmd : List Nat
  allocId : Nat
  current_render_pass : Bool
  pass_driverdata : Nat
deriving DecidableEq, Repr

/-- `OPENGL_PushCommand` (SDL_gpu_opengl.c lines 954-985).  `hdr` is
`sizeof(*glcmdbuf)` (the header in front of the flexible array) and
`reallocOk` tells whether `SDL_realloc` succeeds when growth is needed.
Mirrors the source: overflow-check `n_cmd + size_cmd`; if the new size
exceeds the capacity: overflow-check `capacity_cmd * 2` and
`new_capacity + sizeof(*glcmdbuf)`, reallocate (relocating the arena and
patching the open render pass's `driverdata` back-pointer into the new
allocation), double the capacity; finally `memcpy` the record at `n_cmd`.
On every failure path it returns before the `memcpy`, leaving the buffer
untouched. -/
def OPENGL_PushCommand (hdr : Nat) (reallocOk : Bool)
    (glcmdbuf : OPENGL_GpuCommandBuffer) (c : List Nat) :
    OPENGL_GpuCommandBuffer × Option PushFail :=
  if glcmdbuf.cmd.length + c.length > SIZE_MAX then
    (glcmdbuf, some .sizeOverflow)
  else
    if glcmdbuf.cmd.length + c.length > glcmdbuf.capacity_cmd then
      if glcmdbuf.capacity_cmd * 2 > SIZE_MAX then
        (glcmdbuf, some .sizeOverflow)
      else if glcmdbuf.capacity_cmd * 2 + hdr > SIZE_MAX then
        (glcmdbuf, some .sizeOverflow)
      else if reallocOk = false then
        (glcmdbuf, some .reallocFail)
      else
        ({ capacity_cmd := glcmdbuf.capacity_cmd * 2,
           cmd := glcmdbuf.cmd ++ c,
           allocId := glcmdbuf.allocId + 1,
           current_render_pass := glcmdbuf.current_render_pass,
           pass_driverdata :=
             if glcmdbuf.current_render_pass then glcmdbuf.allocId + 1
             else glcmdbuf.pass_driverdata }, none)
    else
      ({ glcmdbuf with cmd := glcmdbuf.cmd ++ c }, none)

/-- `INITIAL_CMD_BUFFER_CAPACITY` from `OPENGL_GpuCreateCommandBuffer`
(SDL_gpu_opengl.c line 944). -/
def INITIAL_CMD_BUFFER_CAPACITY : Nat := 128 * 1024

/-- A freshly created command buffer (`OPENGL_GpuCreateCommandBuffer`,
SDL_gpu_opengl.c lines 942-952): zeroed state with the initial capacity. -/
def OPENGL_GpuCreateCommandBuffer : OPENGL_GpuCommandBuffer :=
  { capacity_cmd := INITIAL_CMD_BUFFER_CAPACITY, cmd := [], allocId := 0,
    current_render_pass := false, pass_driverdata := 0 }

/-- Recording a list of records: each is encoded and appended with
`OPENGL_PushCommand` in order; recording stops at the first failure. -/
def recordAll (hdr : Nat) (reallocOk : Bool)
    (glcmdbuf : OPENGL_GpuCommandBuffer) :
    List GLRecord → OPENGL_GpuCommandBuffer × Option PushFail
  | [] => (glcmdbuf, none)
  | r :: rs =>
    match OPENGL_PushCommand hdr reallocOk glcmdbuf (encodeRecord r) with
    | (buf, none) => recordAll hdr reallocOk buf rs
    | (buf, some e) => (buf, some e)

/-- `OPENGL_GpuSubmitCommandBuffer` (SDL_gpu_opengl.c lines 1951-2139):
append the sentinel `CMD_NONE` tag with `OPENGL_PushCommand` (returning
failure if that push fails), then walk the arena from offset 0 with the
replay loop. -/
def OPENGL_GpuSubmitCommandBuffer (paySize : Nat → Nat) (hdr : Nat)
    (reallocOk : Bool) (glcmdbuf : OPENGL_GpuCommandBuffer) :
    Option (List GLRecord) :=
  match OPENGL_PushCommand hdr reallocOk glcmdbuf [CMD_NONE] with
  | (_, some _) => none
  | (buf, none) => replayArena paySize buf.cmd

/-! ## 32-bit helpers

C arithmetic on `Uint32`/`GLint` operands is modelled explicitly: `Uint32`
values are `Nat` below `U32_MOD`, `GLint`/`GLsizei` values are `Int` in the
32-bit signed range, and mixed `int`/`unsigned` expressions follow the C
usual arithmetic conversions (both operands converted to `unsigned`,
wrapping modulo `2^32`, the result converted back by two's complement). -/

/-- One past the largest `Uint32` value. -/
def U32_MOD : Nat := 2 ^ 32

/-- `INT32_MAX`, the initial value of `render_target_height` in
`OPENGL_GpuStartRenderPass`. -/
def INT32_MAX : Int := 2 ^ 31 - 1

/-- Conversion of a C `int` value to `unsigned int` (two's complement). -/
def intToU32 (z : Int) : Nat := (z % (U32_MOD : Int)).toNat

/-- Conversion of an `unsigned int` bit pattern to a C `int` value
(two's complement). -/
def u32ToInt32 (n : Nat) : Int :=
  if n % U32_MOD < 2 ^ 31 then ((n % U32_MOD : Nat) : Int)
  else ((n % U32_MOD : Nat) : Int) - (U32_MOD : Int)

/-- `Uint32` subtraction `a - b`, wrapping modulo `2^32`. -/
def u32sub (a b : Nat) : Nat :=
  (a % U32_MOD + (U32_MOD - b % U32_MOD)) % U32_MOD

/-! ## Render-pass height and the viewport/scissor Y flip -/

/-- The `render_target_height` computation of `OPENGL_GpuStartRenderPass`
(SDL_gpu_opengl.c lines 1005-1056): starting from `INT32_MAX`, it is
`SDL_min`-folded with the height of every color attachment that has a bound
texture, then with the depth attachment's height if present, then with the
stencil attachment's height if present.  `colors` holds `some h` for a
color attachment slot with a bound texture of height `h` and `none` for an
empty slot. -/
def renderTargetHeightOfStartRenderPass (colors : List (Option Int))
    (depth stencil : Option Int) : Int :=
  let h0 := colors.foldl
    (fun acc o => match o with
      | some h => min acc h
      | none => acc) INT32_MAX
  let h1 := match depth with
    | some h => min h0 h
    | none => h0
  match stencil with
  | some h => min h1 h
  | none => h1

/-- Modelled from the spec: "the pass-wide render-target height [is] the
minimum height across all bound attachments" — the minimum of the heights
of all bound attachments (color, depth, stencil), written as one fold over
the collected height list, to be compared with the source's incremental
computation. -/
def specMinAttachmentHeight (colors : List (Option Int))
    (depth stencil : Option Int) : Int :=
  (colors.filterMap id ++ depth.toList ++ stencil.toList).foldr min INT32_MAX

/-- The recorded `GLCMD_SetViewport` command payload
(SDL_gpu_glcommand.h lines 142-150); the `double` parameters and `GLfloat`
fields are modelled as exact rationals. -/
structure GLCMD_SetViewport where
  x : ℚ
  y : ℚ
  w : ℚ
  h : ℚ
deriving DecidableEq, Repr

/-- `OPENGL_GpuSetRenderPassViewport` (SDL_gpu_opengl.c lines 1398-1411):
the recorded rectangle keeps `x`, `width`, `height` and flips the Y
coordinate with the pass's render-target height:
`cmd.y = render_target_height - y - height`. -/
def OPENGL_GpuSetRenderPassViewport (render_targert_height : Int)
    (x y width height : ℚ) : GLCMD_SetViewport :=
  { x := x
    y := (render_targert_height : ℚ) - y - height
    w := width
    h := height }

/-- The recorded `GLCMD_SetScissor` command payload
(SDL_gpu_glcommand.h lines 152-158): `GLint`/`GLsizei` fields. -/
structure GLCMD_SetScissor where
  x : Int
  y : Int
  w : Int
  h : Int
deriving DecidableEq, Repr

/-- `OPENGL_GpuSetRenderPassScissor` (SDL_gpu_opengl.c lines 1419-1430):
parameters are `Uint32`, the stored fields `GLint`/`GLsizei`, and
`cmd.y = render_target_height - y - height` is computed with the C usual
arithmetic conversions: the `GLsizei` height converts to `unsigned`, the
subtractions wrap modulo `2^32`, and the result converts back to `GLint`. -/
def OPENGL_GpuSetRenderPassScissor (render_targert_height : Int)
    (x y width height : Nat) : GLCMD_SetScissor :=
  { x := u32ToInt32 x
    y := u32ToInt32 (u32sub (u32sub (intToU32 render_targert_height) y) height)
    w := u32ToInt32 width
    h := u32ToInt32 height }

/-! ## `SetBuffer` commands (vertex/fragment stage) -/

/-- The recorded `GLCMD_SetBuffer` command payload
(SDL_gpu_glcommand.h lines 168-174). -/
structure GLCMD_SetBuffer where
  index : Nat
  buffer : Nat
  offset : Nat
  size : Nat
deriving DecidableEq, Repr

/-- `OPENGL_GpuSetRenderPassVertexBuffer` (SDL_gpu_opengl.c lines
1455-1465): records the buffer handle, the caller's offset and
`cmd.size = buffer->buflen - offset` with no bounds check.  Modelled from
the spec for the one declaration not under `src/` (`SDL_GpuBuffer` in
`SDL_sysgpu.h`): `buflen` is the buffer's `Uint32` byte length, so the
subtraction is `Uint32` arithmetic wrapping modulo `2^32`. -/
def OPENGL_GpuSetRenderPassVertexBuffer (buflen offset index buffer : Nat) :
    GLCMD_SetBuffer :=
  { index := index
    buffer := buffer
    offset := offset
    size := u32sub buflen offset }

/-- `OPENGL_GpuSetRenderPassFragmentBuffer` (SDL_gpu_opengl.c lines
1530-1533) simply delegates to `OPENGL_GpuSetRenderPassVertexBuffer`. -/
def OPENGL_GpuSetRenderPassFragmentBuffer (buflen offset index buffer : Nat) :
    GLCMD_SetBuffer :=
  OPENGL_GpuSetRenderPassVertexBuffer buflen offset index buffer

/-! ## Resource destruction

Each destroy operation reads the stored native handle out of `driverdata`
(`0` models the null pointer), deletes it natively only when non-zero, and
stores null back.  The first component of the result is the list of native
handles released, the second the new stored `driverdata` value. -/

/-- `OPENGL_GpuDestroyCpuBuffer` (SDL_gpu_opengl.c lines 315-324). -/
def OPENGL_GpuDestroyCpuBuffer (driverdata : Nat) : List Nat × Nat :=
  (if driverdata ≠ 0 then [driverdata] else [], 0)

/-- `OPENGL_GpuDestroyBuffer` (SDL_gpu_opengl.c lines 363-372). -/
def OPENGL_GpuDestroyBuffer (driverdata : Nat) : List Nat × Nat :=
  (if driverdata ≠ 0 then [driverdata] else [], 0)

/-- `OPENGL_GpuDestroyTexture` (SDL_gpu_opengl.c lines 508-517). -/
def OPENGL_GpuDestroyTexture (driverdata : Nat) : List Nat × Nat :=
  (if driverdata ≠ 0 then [driverdata] else [], 0)

/-- `OPENGL_GpuDestroyShader` (SDL_gpu_opengl.c lines 583-592). -/
def OPENGL_GpuDestroyShader (driverdata : Nat) : List Nat × Nat :=
  (if driverdata ≠ 0 then [driverdata] else [], 0)

/-- `OPENGL_GpuDestroySampler` (SDL_gpu_opengl.c lines 931-940). -/
def OPENGL_GpuDestroySampler (driverdata : Nat) : List Nat × Nat :=
  (if driverdata ≠ 0 then [driverdata] else [], 0)

/-- `OPENGL_GpuDestroyPipeline` (SDL_gpu_opengl.c lines 846-859): the
`driverdata` packs `vao glid << 32 | program glid`; the program is deleted
first, then the vertex array object, each only when non-zero, then the
stored value is nulled. -/
def OPENGL_GpuDestroyPipeline (driverdata : Nat) : List Nat × Nat :=
  let program := driverdata % U32_MOD
  let vao := driverdata / U32_MOD
  ((if program ≠ 0 then [program] else []) ++ (if vao ≠ 0 then [vao] else []), 0)

/-! ## Call results and the explicitly unimplemented operations -/

/-- The retrievable SDL error categories relevant here: `SDL_Unsupported()`
sets the distinct "not supported" error. -/
inductive SDLError where
  | unsupported
deriving DecidableEq, Repr

/-- Result of one backend entry point: the returned `int` and the error (if
any) that the call set. -/
structure CallOut where
  ret : Int
  err : Option SDLError
deriving DecidableEq, Repr

/-- `OPENGL_GpuDrawInstanced` (SDL_gpu_opengl.c lines 1594-1601): the body
is only a TODO comment and `return 0` — it records nothing and reports
success. -/
def OPENGL_GpuDrawInstanced (vertex_start vertex_count instance_count
    base_instance : Nat) : CallOut :=
  { ret := 0, err := none }

/-- `OPENGL_GpuDrawInstancedIndexed` (SDL_gpu_opengl.c lines 1608-1616):
likewise only a TODO comment and `return 0`. -/
def OPENGL_GpuDrawInstancedIndexed (index_count index_offset instance_count
    base_vertex base_instance : Nat) : CallOut :=
  { ret := 0, err := none }

/-- `OPENGL_GpuCopyFromTextureToBuffer` (SDL_gpu_opengl.c lines 1899-1918):
the body is commented out and the function returns `SDL_Unsupported()`. -/
def OPENGL_GpuCopyFromTextureToBuffer : CallOut :=
  { ret := -1, err := some .unsupported }

/-- The backend-neutral texture types (`SDL_GpuTextureType`). -/
inductive SDL_GpuTextureType where
  | oneD
  | oneDArray
  | cube
  | twoD
  | twoDArray
  | cubeArray
  | threeD
deriving DecidableEq, Repr

/-- `GetTextureDimension` (SDL_gpu_opengl.c lines 374-387). -/
def GetTextureDimension (data_type : SDL_GpuTextureType) : Nat :=
  match data_type with
  | .oneD => 1
  | .oneDArray | .cube | .twoD => 2
  | .twoDArray | .cubeArray | .threeD => 3

/-- The command tag chosen by `OPENGL_GpuCopyFromBufferToTexture`
(SDL_gpu_opengl.c line 1846):
`CMD_COPY_BUFFER_TO_TEXTURE_1D + GetTextureDimension(type) - 1`. -/
def copyFromBufferToTextureTag (dst_type : SDL_GpuTextureType) : Nat :=
  CMD_COPY_BUFFER_TO_TEXTURE_1D + GetTextureDimension dst_type - 1

/-- The native GL calls an execution routine can issue (only the ones the
claims observe are distinguished). -/
inductive GLNativeCall where
  | texSubImage1D
  | texSubImage2D
  | texSubImage3D
deriving DecidableEq, Repr

/-- `ExecCopyBufferToTexture3D` (SDL_gpu_opengl.c lines 1894-1897): the
body is only a TODO comment — replaying a 3D buffer-to-texture copy issues
no native call at all. -/
def ExecCopyBufferToTexture3D : List GLNativeCall := []

/-! ## Debug-label ownership during replay

The three commands that own a heap-duplicated label string are
`GLCMD_StartRenderPass`, `GLCMD_SetPipeline` and `GLCMD_StartBlitPass`.
Each execution routine is modelled by the number of `SDL_free` calls it
performs on a non-null label pointer (`SDL_free(NULL)` is a no-op and
counts as no free attempted). -/

/-- `ExecStartRenderPass` (SDL_gpu_opengl.c lines 1069-1157) projected to
its result and the frees of `cmd->pass_label`: if framebuffer creation
fails the label is freed (when present) and the routine fails; otherwise
the label is used for `glObjectLabel` and freed (when present) before the
completeness check, whose failure only deletes the framebuffer. -/
def ExecStartRenderPass (pass_label : Option String) (fbo : Nat)
    (fbComplete : Bool) : Int × Nat :=
  if fbo = 0 then
    (-1, if pass_label.isSome then 1 else 0)
  else
    let frees := if pass_label.isSome then 1 else 0
    if fbComplete then (0, frees) else (-1, frees)

/-- `ExecSetRenderPassPipeline` (SDL_gpu_opengl.c lines 1323-1396)
projected to the frees of `cmd->pipeline_label`: when a label is present
it is pushed as a debug group and freed, otherwise nothing is freed. -/
def ExecSetRenderPassPipeline (pipeline_label : Option String) : Nat :=
  if pipeline_label.isSome then 1 else 0

/-- `ExecStartBlitPass` (SDL_gpu_opengl.c lines 1662-1669): it records
whether a debug group must be popped and pushes the label as a debug
group, but contains no `SDL_free` call — the duplicated label is never
freed.  Result: (pop_pass_label, frees of `cmd->pass_label`). -/
def ExecStartBlitPass (pass_label : Option String) : Bool × Nat :=
  (pass_label.isSome, 0)

/-! ## Shader creation and the stage marker -/

/-- The two GL shader stages selectable by `CreateShader`. -/
inductive ShaderStage where
  | vertex
  | fragment
deriving DecidableEq, Repr

/-- Observable outcome of `OPENGL_GpuCreateShader`: the returned `int`,
which stage (if any) was compiled, and whether the call set an SDL error
message. -/
structure CreateShaderOut where
  ret : Int
  stage : Option ShaderStage
  errorSet : Bool
deriving DecidableEq, Repr

/-- The marker prefix selecting vertex compilation. -/
def vertMarker : List Char := ['/', '/', ' ', 'v', 'e', 'r', 't']

/-- The marker prefix selecting fragment compilation. -/
def fragMarker : List Char := ['/', '/', ' ', 'f', 'r', 'a', 'g']

/-- `OPENGL_GpuCreateShader` (SDL_gpu_opengl.c lines 550-581): the source
blob is compared with `SDL_strncmp(.., "// vert", 7)` and
`SDL_strncmp(.., "// frag", 7)` to pick the stage; when neither marker
matches the function returns `-1` directly, without calling
`SDL_SetError`.  `compileOk` abstracts the native create/compile path of
the `CreateShader` helper (lines 519-548), which sets a GL error message
on failure. -/
def OPENGL_GpuCreateShader (bytecode : List Char) (compileOk : Bool) :
    CreateShaderOut :=
  if bytecode.take 7 = vertMarker then
    if compileOk then { ret := 0, stage := some .vertex, errorSet := false }
    else { ret := -1, stage := some .vertex, errorSet := true }
  else if bytecode.take 7 = fragMarker then
    if compileOk then { ret := 0, stage := some .fragment, errorSet := false }
    else { ret := -1, stage := some .fragment, errorSet := true }
  else
    { ret := -1, stage := none, errorSet := false }

/-! ## Present and the lazily applied swap interval -/

/-- The native calls `OPENGL_GpuPresent` issues, in order. -/
inductive PresentEvent where
  | setSwapInterval (interval : Int)
  | viewport
  | blitFramebuffer
  | swapWindow
deriving DecidableEq, Repr

/-- Observable outcome of `OPENGL_GpuPresent`: the native call sequence
and the device's remembered `swap_interval` afterwards. -/
structure PresentOut where
  events : List PresentEvent
  swap_interval : Int
deriving DecidableEq, Repr

/-- `OPENGL_GpuPresent` (SDL_gpu_opengl.c lines 2165-2200) projected to
its swap-interval handling and native call order: `SDL_GL_SetSwapInterval`
is attempted only when the requested interval differs from the remembered
`gl_data->swap_interval`; when that call does not return success and the
request was adaptive vsync (`-1`), plain vsync (`1`) is attempted instead;
and the requested interval is stored as the remembered value even if the
native call failed ("store swap interval even if it fails, don't retry
every frame").  `nativeRet` is the return value of the first
`SDL_GL_SetSwapInterval` call. -/
def OPENGL_GpuPresent (swapinterval : Int) (swap_interval : Int)
    (nativeRet : Int) : PresentOut :=
  let swapCalls :=
    if swapinterval ≠ swap_interval then
      if nativeRet < 1 then
        if swapinterval = -1 then
          [PresentEvent.setSwapInterval swapinterval, PresentEvent.setSwapInterval 1]
        else
          [PresentEvent.setSwapInterval swapinterval]
      else
        [PresentEvent.setSwapInterval swapinterval]
    else
      []
  { events := swapCalls ++ [.viewport, .blitFramebuffer, .swapWindow]
    swap_interval := swapinterval }

/-- Whether a present event is a native set-swap-interval call. -/
def isSetSwapInterval : PresentEvent → Bool
  | .setSwapInterval _ => true
  | _ => false

/-! ## Backbuffer recreation and `GetBackbuffer` -/

/-- GL internal-format enum values used by the backbuffer path. -/
def GL_RGB5_A1 : Nat := 0x8057
def GL_RGB565 : Nat := 0x8D62
def GL_RGBA8 : Nat := 0x8058
def GL_RGB10_A2 : Nat := 0x8059

/-- The backend-neutral pixel formats (`SDL_GpuPixelFormat`). -/
inductive SDL_GpuPixelFormat where
  | INVALID
  | B5G6R5
  | BGR5A1
  | RGBA8
  | RGBA8_sRGB
  | BGRA8
  | BGRA8_sRGB
  | Depth24_Stencil8
deriving DecidableEq, Repr

/-- `PixelFormatFromGL` (SDL_gpu_opengl.c lines 125-139): only
`GL_RGB5_A1`, `GL_RGB565` and `GL_RGBA8` map back to a gpu pixel format;
everything else (including `GL_RGB10_A2`) is `SDL_GPUPIXELFMT_INVALID`. -/
def PixelFormatFromGL (interal_pixel_format : Nat) : SDL_GpuPixelFormat :=
  if interal_pixel_format = GL_RGB5_A1 then .BGR5A1
  else if interal_pixel_format = GL_RGB565 then .B5G6R5
  else if interal_pixel_format = GL_RGBA8 then .RGBA8
  else .INVALID

/-- The window pixel formats named in the `RecreateBackBufferTexture`
switch (SDL_pixels.h values relevant to lines 176-221). -/
inductive SDL_PixelFormat where
  | UNKNOWN
  | RGB332
  | RGB444
  | BGR444
  | RGB555
  | BGR555
  | ARGB4444
  | RGBA4444
  | ABGR4444
  | BGRA4444
  | ARGB1555
  | RGBA5551
  | ABGR1555
  | BGRA5551
  | RGB565
  | BGR565
  | RGB24
  | BGR24
  | XRGB8888
  | RGBX8888
  | XBGR8888
  | BGRX8888
  | ARGB8888
  | RGBA8888
  | ABGR8888
  | BGRA8888
  | ARGB2101010
  | other
deriving DecidableEq, Repr

/-- The window-format switch of `RecreateBackBufferTexture`
(SDL_gpu_opengl.c lines 176-221).  The per-group assignments are commented
out in the source, so every listed case from `RGB332` through `BGRA8888`
falls through to the first live statement `gl_internal_format = GL_RGBA8`;
`ARGB2101010` selects `GL_RGB10_A2`; `UNKNOWN` selects `0`; formats not
listed in the switch leave the initial `0`. -/
def windowFormatToGLInternal (window_pixel_format : SDL_PixelFormat) : Nat :=
  match window_pixel_format with
  | .UNKNOWN => 0
  | .RGB332 | .RGB444 | .BGR444 | .RGB555 | .BGR555
  | .ARGB4444 | .RGBA4444 | .ABGR4444 | .BGRA4444
  | .ARGB1555 | .RGBA5551 | .ABGR1555 | .BGRA5551
  | .RGB565 | .BGR565 | .RGB24 | .BGR24
  | .XRGB8888 | .RGBX8888 | .XBGR8888 | .BGRX8888
  | .ARGB8888 | .RGBA8888 | .ABGR8888 | .BGRA8888 => GL_RGBA8
  | .ARGB2101010 => GL_RGB10_A2
  | .other => 0

/-- The device state touched by the backbuffer path (`OGL_GpuDevice`,
SDL_gpu_opengl.h): the synthetic backbuffer texture handle, its gpu pixel
format and pixel dimensions, and the asynchronously set
`window_size_changed` atomic flag. -/
structure OGL_GpuDevice where
  texture_backbuffer : Nat
  texture_backbuffer_format : SDL_GpuPixelFormat
  w_backbuffer : Int
  h_backbuffer : Int
  window_size_changed : Bool
deriving DecidableEq, Repr

/-- Environment of one `RecreateBackBufferTexture` call: the window's
current pixel size and pixel format, the texture id `glCreateTextures`
returns (`0` models creation failure) and whether the backbuffer
framebuffer passes `CheckFrameBuffer` with the new texture attached. -/
structure RecreateEnv where
  winW : Int
  winH : Int
  winFormat : SDL_PixelFormat
  newTexture : Nat
  fbComplete : Bool
deriving DecidableEq, Repr

/-- Observable native texture/framebuffer operations of the backbuffer
path, in call order. -/
inductive BackbufferEvent where
  | createTexture (glid : Nat)
  | attachTexture (glid : Nat)
  | deleteTexture (glid : Nat)
deriving DecidableEq, Repr

/-- Result of `RecreateBackBufferTexture`: success flag, updated device
state, native events. -/
structure RecreateOut where
  ok : Bool
  dev : OGL_GpuDevice
  events : List BackbufferEvent
deriving DecidableEq, Repr

/-- `RecreateBackBufferTexture` (SDL_gpu_opengl.c lines 166-259): derive
the GL internal format and gpu pixel format from the window format,
failing if either is invalid; return success immediately when size and
format are unchanged; otherwise create a new texture (failing if creation
returns id `0`), attach it to the backbuffer framebuffer and check
completeness — on an incomplete framebuffer the old texture is re-attached
and the new one deleted, leaving the stored backbuffer untouched; only
after the completeness check passes is the old texture deleted and the
stored texture/format/size replaced. -/
def RecreateBackBufferTexture (env : RecreateEnv) (gl_data : OGL_GpuDevice) :
    RecreateOut :=
  if windowFormatToGLInternal env.winFormat = 0
      ∨ PixelFormatFromGL (windowFormatToGLInternal env.winFormat) = .INVALID then
    { ok := false, dev := gl_data, events := [] }
  else if env.winW = gl_data.w_backbuffer ∧ env.winH = gl_data.h_backbuffer
      ∧ PixelFormatFromGL (windowFormatToGLInternal env.winFormat)
          = gl_data.texture_backbuffer_format then
    { ok := true, dev := gl_data, events := [] }
  else if env.newTexture = 0 then
    { ok := false, dev := gl_data, events := [.createTexture 0] }
  else if env.fbComplete = false then
    { ok := false, dev := gl_data
      events := [.createTexture env.newTexture, .attachTexture env.newTexture,
        .attachTexture gl_data.texture_backbuffer, .deleteTexture env.newTexture] }
  else
    { ok := true
      dev := { gl_data with
        texture_backbuffer := env.newTexture
        texture_backbuffer_format :=
          PixelFormatFromGL (windowFormatToGLInternal env.winFormat)
        w_backbuffer := env.winW
        h_backbuffer := env.winH }
      events := [.createTexture env.newTexture, .attachTexture env.newTexture]
        ++ (if gl_data.texture_backbuffer ≠ 0
            then [.deleteTexture gl_data.texture_backbuffer] else []) }

/-- Result of `OPENGL_GpuGetBackbuffer`: the returned `int`, the updated
device state, the native events, and how many recreation attempts were
made during this call. -/
structure GetBackbufferOut where
  ret : Int
  dev : OGL_GpuDevice
  events : List BackbufferEvent
  attempts : Nat
deriving DecidableEq, Repr

/-- `OPENGL_GpuGetBackbuffer` (SDL_gpu_opengl.c lines 2147-2163): the
`window_size_changed` flag is consumed with
`SDL_AtomicCAS(&flag, 1, 0)` — the branch is taken exactly when the flag
was set, and taking it clears the flag; inside, a single
`RecreateBackBufferTexture` attempt is made and on failure the flag is set
back to `1` ("retry next time") and `-1` returned with the stored
backbuffer untouched. -/
def OPENGL_GpuGetBackbuffer (env : RecreateEnv) (gl_data : OGL_GpuDevice) :
    GetBackbufferOut :=
  if gl_data.window_size_changed then
    if (RecreateBackBufferTexture env
        { gl_data with window_size_changed := false }).ok then
      { ret := 0
        dev := (RecreateBackBufferTexture env
          { gl_data with window_size_changed := false }).dev
        events := (RecreateBackBufferTexture env
          { gl_data with window_size_changed := false }).events
        attempts := 1 }
    else
      { ret := -1
        dev := { (RecreateBackBufferTexture env
          { gl_data with window_size_changed := false }).dev with
            window_size_changed := true }
        events := (RecreateBackBufferTexture env
          { gl_data with window_size_changed := false }).events
        attempts := 1 }
  else
    { ret := 0, dev := gl_data, events := [], attempts := 0 }

/-! ## Helper lemmas -/

theorem replayArena_encode (paySize : Nat → Nat) (rs : List GLRecord)
    (hwf : ∀ r ∈ rs, RecordWF paySize r) :
    replayArena paySize (encodeArena rs ++ [CMD_NONE]) = some rs := by
  induction rs with
  | nil =>
    simp [encodeArena, replayArena, CMD_NONE]
  | cons r rs ih =>
    obtain ⟨hpos, hlt, hlen⟩ := hwf r (List.mem_cons_self r rs)
    have htail : ∀ x ∈ rs, RecordWF paySize x := fun x hx => hwf x (List.mem_cons_of_mem r hx)
    have hne : ¬(r.tag = CMD_NONE ∨ r.tag = CMD_COUNT) := by
      unfold CMD_NONE CMD_COUNT at *
      omega
    have harena :
        encodeArena (r :: rs) ++ [CMD_NONE]
          = r.tag :: (r.payload ++ (encodeArena rs ++ [CMD_NONE])) := by
      simp [encodeArena, encodeRecord]
    rw [harena]
    unfold replayArena
    rw [if_neg hne, if_pos hlt]
    have hdrop : (r.payload ++ (encodeArena rs ++ [CMD_NONE])).drop (paySize r.tag)
        = encodeArena rs ++ [CMD_NONE] := by
      rw [← hlen, List.drop_left]
    have htake : (r.payload ++ (encodeArena rs ++ [CMD_NONE])).take (paySize r.tag)
        = r.payload := by
      rw [← hlen, List.take_left]
    rw [hdrop, htake, ih htail]

theorem OPENGL_PushCommand_cmd_of_ok (hdr : Nat) (reallocOk : Bool)
    (glcmdbuf : OPENGL_GpuCommandBuffer) (c : List Nat)
    (h : (OPENGL_PushCommand hdr reallocOk glcmdbuf c).2 = none) :
    (OPENGL_PushCommand hdr reallocOk glcmdbuf c).1.cmd = glcmdbuf.cmd ++ c := by
  unfold OPENGL_PushCommand at *
  split_ifs at h ⊢ <;> simp_all

theorem recordAll_cmd_of_ok (hdr : Nat) (reallocOk : Bool)
    (glcmdbuf : OPENGL_GpuCommandBuffer) (rs : List GLRecord)
    (h : (recordAll hdr reallocOk glcmdbuf rs).2 = none) :
    (recordAll hdr reallocOk glcmdbuf rs).1.cmd = glcmdbuf.cmd ++ encodeArena rs := by
  induction rs generalizing glcmdbuf with
  | nil => simp [recordAll, encodeArena]
  | cons r rs ih =>
    unfold recordAll at h ⊢
    rcases hp : OPENGL_PushCommand hdr reallocOk glcmdbuf (encodeRecord r) with ⟨buf, e⟩
    cases e with
    | none =>
      simp only [hp] at h ⊢
      have hbuf : buf.cmd = glcmdbuf.cmd ++ encodeRecord r := by
        have := OPENGL_PushCommand_cmd_of_ok hdr reallocOk glcmdbuf (encodeRecord r)
          (by rw [hp])
        rwa [hp] at this
      rw [ih buf h, hbuf]
      simp [encodeArena, List.append_assoc]
    | some e =>
      simp [hp] at h

/-! ## Claim theorems -/

/-- Claim C1: submitting a command buffer replays the recorded commands in
exactly the order they were recorded (FIFO): the walker starts at arena
offset 0, reads each tag and its fixed-size payload, dispatches it,
advances by that record's exact size, and terminates on the sentinel
`CMD_NONE` tag that submission appends after the last recorded command. -/
theorem C1_submit_replays_record_order (paySize : Nat → Nat) (hdr : Nat)
    (rs : List GLRecord) (buf : OPENGL_GpuCommandBuffer)
    (hwf : ∀ r ∈ rs, RecordWF paySize r)
    (hrec : recordAll hdr true OPENGL_GpuCreateCommandBuffer rs = (buf, none))
    (hsent : (OPENGL_PushCommand hdr true buf [CMD_NONE]).2 = none) :
    OPENGL_GpuSubmitCommandBuffer paySize hdr true buf = some rs := by
  have hcmd : buf.cmd = encodeArena rs := by
    have h := recordAll_cmd_of_ok hdr true OPENGL_GpuCreateCommandBuffer rs (by rw [hrec])
    rw [hrec] at h
    simpa [OPENGL_GpuCreateCommandBuffer] using h
  rcases hp : OPENGL_PushCommand hdr true buf [CMD_NONE] with ⟨buf2, e⟩
  have he : e = none := by
    have h := hsent
    rw [hp] at h
    exact h
  subst he
  have hb2 : buf2.cmd = buf.cmd ++ [CMD_NONE] := by
    have h := OPENGL_PushCommand_cmd_of_ok hdr true buf [CMD_NONE] hsent
    rwa [hp] at h
  unfold OPENGL_GpuSubmitCommandBuffer
  rw [hp]
  show replayArena paySize buf2.cmd = some rs
  rw [hb2, hcmd]
  exact replayArena_encode paySize rs hwf

/-- Concrete instance of C1: two recorded commands replay in order after
submission appends the sentinel. -/
theorem C1_witness :
    OPENGL_GpuSubmitCommandBuffer (fun _ => 2) 64 true
        (recordAll 64 true OPENGL_GpuCreateCommandBuffer
          [⟨CMD_DRAW, [1, 2]⟩, ⟨CMD_END_RENDER_PASS, [3, 4]⟩]).1
      = some [⟨CMD_DRAW, [1, 2]⟩, ⟨CMD_END_RENDER_PASS, [3, 4]⟩] :=
  C1_submit_replays_record_order (fun _ => 2) 64
    [⟨CMD_DRAW, [1, 2]⟩, ⟨CMD_END_RENDER_PASS, [3, 4]⟩]
    (recordAll 64 true OPENGL_GpuCreateCommandBuffer
      [⟨CMD_DRAW, [1, 2]⟩, ⟨CMD_END_RENDER_PASS, [3, 4]⟩]).1
    (by decide) (by decide) (by decide)

/-- Claim C2: on append, a record that does not fit doubles the capacity;
already-written bytes are preserved; the open render pass's back-pointer
into the (relocated) arena is patched; every size computation detects
overflow and fails with the `sizeOverflow` exit, distinct from the
`reallocFail` exit of a failed allocation; and no bytes are written on any
failure. -/
theorem C2_pushCommand_growth_and_overflow (hdr : Nat) (reallocOk : Bool)
    (buf : OPENGL_GpuCommandBuffer) (c : List Nat) :
    (buf.cmd.length + c.length ≤ SIZE_MAX →
      buf.cmd.length + c.length ≤ buf.capacity_cmd →
      OPENGL_PushCommand hdr reallocOk buf c = ({ buf with cmd := buf.cmd ++ c }, none))
  ∧ (buf.cmd.length + c.length ≤ SIZE_MAX →
      buf.capacity_cmd < buf.cmd.length + c.length →
      buf.capacity_cmd * 2 + hdr ≤ SIZE_MAX →
      OPENGL_PushCommand hdr true buf c =
        ({ capacity_cmd := buf.capacity_cmd * 2, cmd := buf.cmd ++ c,
           allocId := buf.allocId + 1,
           current_render_pass := buf.current_render_pass,
           pass_driverdata :=
             if buf.current_render_pass then buf.allocId + 1
             else buf.pass_driverdata }, none))
  ∧ (buf.current_render_pass = true → buf.pass_driverdata = buf.allocId →
      ∀ buf2, OPENGL_PushCommand hdr reallocOk buf c = (buf2, none) →
        buf2.pass_driverdata = buf2.allocId)
  ∧ (SIZE_MAX < buf.cmd.length + c.length →
      OPENGL_PushCommand hdr reallocOk buf c = (buf, some .sizeOverflow))
  ∧ (buf.cmd.length + c.length ≤ SIZE_MAX →
      buf.capacity_cmd < buf.cmd.length + c.length →
      SIZE_MAX < buf.capacity_cmd * 2 + hdr →
      OPENGL_PushCommand hdr reallocOk buf c = (buf, some .sizeOverflow))
  ∧ (buf.cmd.length + c.length ≤ SIZE_MAX →
      buf.capacity_cmd < buf.cmd.length + c.length →
      buf.capacity_cmd * 2 + hdr ≤ SIZE_MAX →
      OPENGL_PushCommand hdr false buf c = (buf, some .reallocFail))
  ∧ (∀ e buf2, OPENGL_PushCommand hdr reallocOk buf c = (buf2, some e) → buf2 = buf) := by
  refine ⟨?_, ?_, ?_, ?_, ?_, ?_, ?_⟩
  · intro h1 h2
    unfold OPENGL_PushCommand
    split_ifs <;> first | rfl | omega
  · intro h1 h2 h3
    unfold OPENGL_PushCommand
    split_ifs <;> first | rfl | omega | simp_all
  · intro hrp hval buf2 hpush
    unfold OPENGL_PushCommand at hpush
    split_ifs at hpush <;> simp_all <;> (subst hpush; rfl)
  · intro h1
    unfold OPENGL_PushCommand
    split_ifs <;> first | rfl | omega
  · intro h1 h2 h3
    unfold OPENGL_PushCommand
    split_ifs <;> first | rfl | omega
  · intro h1 h2 h3
    unfold OPENGL_PushCommand
    split_ifs <;> first | rfl | omega | simp_all
  · intro e buf2 hpush
    unfold OPENGL_PushCommand at hpush
    split_ifs at hpush <;> simp_all

/-- Concrete instance of C2: a push that does not fit doubles the capacity,
keeps the old bytes, patches the pass back-pointer to the new allocation;
the same push with a failed realloc reports the allocation-failure exit
and writes nothing. -/
theorem C2_witness :
    OPENGL_PushCommand 64 true ⟨4, [9, 9, 9], 5, true, 5⟩ [1, 2]
      = (⟨8, [9, 9, 9, 1, 2], 6, true, 6⟩, none)
  ∧ OPENGL_PushCommand 64 false ⟨4, [9, 9, 9], 5, true, 5⟩ [1, 2]
      = (⟨4, [9, 9, 9], 5, true, 5⟩, some .reallocFail) := by
  constructor
  · have h := (C2_pushCommand_growth_and_overflow 64 true
      ⟨4, [9, 9, 9], 5, true, 5⟩ [1, 2]).2.1 (by decide) (by decide) (by decide)
    simpa using h
  · have h := (C2_pushCommand_growth_and_overflow 64 false
      ⟨4, [9, 9, 9], 5, true, 5⟩ [1, 2]).2.2.2.2.2.1 (by decide) (by decide) (by decide)
    simpa using h

/-- Claim C3: the pass-wide render-target height is the minimum height over
all bound attachments (color, depth, stencil), and `SetViewport(x,y,w,h)` /
`SetScissor(x,y,w,h)` record a native rectangle with
`native_y = H - y - h` and `x`, `w`, `h` passed through unchanged (for the
scissor's 32-bit arithmetic, within the in-range case `y + h ≤ H`,
`H ≤ INT32_MAX`, `x, w, h < 2^31`). -/
theorem C3_render_target_height_and_y_flip :
    (∀ (colors : List (Option Int)) (depth stencil : Option Int),
      renderTargetHeightOfStartRenderPass colors depth stencil
        = specMinAttachmentHeight colors depth stencil)
  ∧ (∀ (H : Int) (x y w h : ℚ),
      OPENGL_GpuSetRenderPassViewport H x y w h
        = { x := x, y := (H : ℚ) - y - h, w := w, h := h })
  ∧ (∀ (H : Int) (x y w h : Nat), 0 ≤ H → H ≤ INT32_MAX →
      (y : Int) + (h : Int) ≤ H →
      x < 2 ^ 31 → w < 2 ^ 31 → h < 2 ^ 31 →
      OPENGL_GpuSetRenderPassScissor H x y w h
        = { x := (x : Int), y := H - (y : Int) - (h : Int),
            w := (w : Int), h := (h : Int) }) := by
  have fmin : ∀ (l : List Int) (a b : Int),
      l.foldr min (min a b) = min (l.foldr min a) b := by
    intro l
    induction l with
    | nil => intro a b; simp
    | cons c l ih =>
      intro a b
      simp only [List.foldr_cons, ih, min_assoc]
  have key : ∀ (colors : List (Option Int)) (a : Int),
      colors.foldl
        (fun acc o => match o with
          | some h => min acc h
          | none => acc) a
        = (colors.filterMap id).foldr min a := by
    intro colors
    induction colors with
    | nil => intro a; simp
    | cons o t ih =>
      intro a
      cases o with
      | none => simpa using ih a
      | some h =>
        simp only [List.foldl_cons, List.filterMap_cons, id, List.foldr_cons]
        rw [ih (min a h), fmin]
        omega
  refine ⟨?_, ?_, ?_⟩
  · intro colors depth stencil
    unfold renderTargetHeightOfStartRenderPass specMinAttachmentHeight
    cases depth with
    | none =>
      cases stencil with
      | none =>
        simpa using key colors INT32_MAX
      | some hs =>
        simp only [Option.toList_none, Option.toList_some, List.append_nil,
          List.nil_append, List.foldr_append, List.foldr_cons, List.foldr_nil]
        rw [key colors INT32_MAX, show min hs INT32_MAX = min INT32_MAX hs from
          min_comm hs INT32_MAX, fmin]
    | some hd =>
      cases stencil with
      | none =>
        simp only [Option.toList_none, Option.toList_some, List.append_nil,
          List.nil_append, List.foldr_append, List.foldr_cons, List.foldr_nil]
        rw [key colors INT32_MAX, show min hd INT32_MAX = min INT32_MAX hd from
          min_comm hd INT32_MAX, fmin]
      | some hs =>
        simp only [Option.toList_none, Option.toList_some, List.append_nil,
          List.nil_append, List.foldr_append, List.foldr_cons, List.foldr_nil]
        rw [show min hd (min hs INT32_MAX) = min (min INT32_MAX hd) hs by omega]
        rw [fmin, fmin, key colors INT32_MAX]
  · intro H x y w h
    simp [OPENGL_GpuSetRenderPassViewport]
  · intro H x y w h h0 hmax hyh hx hw hh
    unfold INT32_MAX at hmax
    simp only [OPENGL_GpuSetRenderPassScissor, u32ToInt32, u32sub, intToU32,
      U32_MOD, GLCMD_SetScissor.mk.injEq]
    refine ⟨?_, ?_, ?_, ?_⟩ <;> split_ifs <;> omega

/-- Concrete instance of C3: for render-target height 50, a scissor
rectangle at `y = 2`, `h = 4` is recorded with native `y = 50 - 2 - 4`
and `x`, `w`, `h` unchanged. -/
theorem C3_witness :
    OPENGL_GpuSetRenderPassScissor 50 1 2 3 4 = { x := 1, y := 44, w := 3, h := 4 } := by
  have h := C3_render_target_height_and_y_flip.2.2 50 1 2 3 4 (by norm_num)
    (by norm_num [INT32_MAX]) (by norm_num) (by norm_num) (by norm_num) (by norm_num)
  rw [h]
  norm_num

/-- Claim C4 fails on the code: `OPENGL_GpuDrawInstanced` silently does
nothing and returns success (0) with no error set, instead of a distinct
"unsupported" failure. -/
theorem C4_counterexample :
    (OPENGL_GpuDrawInstanced 0 3 2 0).ret = 0
  ∧ (OPENGL_GpuDrawInstanced 0 3 2 0).err ≠ some SDLError.unsupported := by
  decide

/-- Claim C4 as amended: `CopyFromTextureToBuffer` returns the distinct
"unsupported" failure, but `DrawInstanced` and `DrawInstancedIndexed`
return success (0) with no error while doing nothing, and the 3D
buffer-to-texture copy records a `CMD_COPY_BUFFER_TO_TEXTURE_3D` command
whose execution routine performs no native call, likewise reporting
success instead of an "unsupported" failure. -/
theorem C4_unsupported_operations :
    OPENGL_GpuCopyFromTextureToBuffer = { ret := -1, err := some .unsupported }
  ∧ (∀ a b c d, OPENGL_GpuDrawInstanced a b c d = { ret := 0, err := none })
  ∧ (∀ a b c d e, OPENGL_GpuDrawInstancedIndexed a b c d e = { ret := 0, err := none })
  ∧ copyFromBufferToTextureTag .threeD = CMD_COPY_BUFFER_TO_TEXTURE_3D
  ∧ ExecCopyBufferToTexture3D = [] := by
  refine ⟨rfl, fun a b c d => rfl, fun a b c d e => rfl, ?_, rfl⟩
  decide

/-- Claim C5: replay frees each heap-duplicated debug label exactly once
and attempts no free when the label is absent.  This holds for the
render-pass and pipeline labels (including the failure paths of
`ExecStartRenderPass`), but `ExecStartBlitPass` never frees the
duplicated blit-pass label: replaying a blit pass with a label performs
zero frees, so the string leaks. -/
theorem C5_blit_pass_label_never_freed :
    (ExecStartBlitPass (some "blit pass")).2 = 0
  ∧ (∀ l fbo fb, (ExecStartRenderPass l fbo fb).2 = if l.isSome then 1 else 0)
  ∧ (∀ l, ExecSetRenderPassPipeline l = if l.isSome then 1 else 0)
  ∧ (∀ l, (ExecStartBlitPass l).2 = 0) := by
  refine ⟨rfl, ?_, fun l => rfl, fun l => rfl⟩
  intro l fbo fb
  unfold ExecStartRenderPass
  split_ifs <;> rfl

theorem RecreateBackBufferTexture_dev_of_fail (env : RecreateEnv) (d : OGL_GpuDevice)
    (h : (RecreateBackBufferTexture env d).ok = false) :
    (RecreateBackBufferTexture env d).dev = d := by
  unfold RecreateBackBufferTexture at *
  split_ifs at h ⊢ <;> simp_all

theorem RecreateBackBufferTexture_flag (env : RecreateEnv) (d : OGL_GpuDevice) :
    (RecreateBackBufferTexture env d).dev.window_size_changed
      = d.window_size_changed := by
  unfold RecreateBackBufferTexture
  split_ifs <;> rfl

theorem RecreateBackBufferTexture_delete_old (env : RecreateEnv) (d : OGL_GpuDevice)
    (hne : env.newTexture ≠ d.texture_backbuffer)
    (hmem : BackbufferEvent.deleteTexture d.texture_backbuffer
      ∈ (RecreateBackBufferTexture env d).events) :
    env.fbComplete = true := by
  unfold RecreateBackBufferTexture at hmem
  split_ifs at hmem <;> simp_all

/-- Claim C6: `GetBackbuffer` consumes the asynchronously set resized flag
with a compare-and-swap, so a call makes at most one recreation attempt
and an unset flag makes none; when recreation fails the flag is set back
(a later call retries) and the stored backbuffer texture, format and
dimensions are unchanged; after a successful consume the flag is clear so
the next call makes no attempt; and the previous backbuffer texture is
deleted only when the framebuffer completeness check passed. -/
theorem C6_getBackbuffer_cas_retry_preserve (env env2 : RecreateEnv)
    (d : OGL_GpuDevice) :
    (d.window_size_changed = false →
      OPENGL_GpuGetBackbuffer env d
        = { ret := 0, dev := d, events := [], attempts := 0 })
  ∧ (OPENGL_GpuGetBackbuffer env d).attempts ≤ 1
  ∧ (d.window_size_changed = true →
      (RecreateBackBufferTexture env
        { d with window_size_changed := false }).ok = false →
      OPENGL_GpuGetBackbuffer env d
        = { ret := -1, dev := d,
            events := (RecreateBackBufferTexture env
              { d with window_size_changed := false }).events,
            attempts := 1 })
  ∧ (d.window_size_changed = true →
      (RecreateBackBufferTexture env
        { d with window_size_changed := false }).ok = true →
      (OPENGL_GpuGetBackbuffer env d).ret = 0
      ∧ (OPENGL_GpuGetBackbuffer env d).dev.window_size_changed = false
      ∧ (OPENGL_GpuGetBackbuffer env d).attempts = 1
      ∧ (OPENGL_GpuGetBackbuffer env2
          (OPENGL_GpuGetBackbuffer env d).dev).attempts = 0)
  ∧ (env.newTexture ≠ d.texture_backbuffer →
      BackbufferEvent.deleteTexture d.texture_backbuffer
        ∈ (OPENGL_GpuGetBackbuffer env d).events →
      env.fbComplete = true) := by
  refine ⟨?_, ?_, ?_, ?_, ?_⟩
  · intro hf
    unfold OPENGL_GpuGetBackbuffer
    rw [hf]
    simp
  · unfold OPENGL_GpuGetBackbuffer
    split_ifs <;> simp
  · intro hf hfail
    have hdev := RecreateBackBufferTexture_dev_of_fail env
      { d with window_size_changed := false } hfail
    unfold OPENGL_GpuGetBackbuffer
    rw [hf, if_pos rfl, if_neg (by simp [hfail]), hdev]
    cases d
    simp_all
  · intro hf hok
    have hflag := RecreateBackBufferTexture_flag env
      { d with window_size_changed := false }
    unfold OPENGL_GpuGetBackbuffer
    rw [hf, if_pos rfl, if_pos hok]
    refine ⟨rfl, ?_, rfl, ?_⟩
    · simpa using hflag
    · rw [if_neg (by simp_all)]
  · intro hne hmem
    unfold OPENGL_GpuGetBackbuffer at hmem
    split_ifs at hmem with hf hok
    · exact RecreateBackBufferTexture_delete_old env
        { d with window_size_changed := false } (by simpa using hne)
        (by simpa using hmem)
    · exact RecreateBackBufferTexture_delete_old env
        { d with window_size_changed := false } (by simpa using hne)
        (by simpa using hmem)
    · simp at hmem

/-- Concrete instance of C6: with the resized flag set and a succeeding
recreation, one attempt is made, the flag ends clear, a second call makes
no attempt, and the old texture's deletion implies the completeness check
passed. -/
theorem C6_witness :
    ((OPENGL_GpuGetBackbuffer ⟨800, 600, .ARGB8888, 9, true⟩
        ⟨7, .RGBA8, 640, 480, true⟩).attempts = 1
      ∧ (OPENGL_GpuGetBackbuffer ⟨800, 600, .ARGB8888, 9, true⟩
          ⟨7, .RGBA8, 640, 480, true⟩).dev.window_size_changed = false)
  ∧ ((9 : Nat) ≠ 7 → BackbufferEvent.deleteTexture 7
        ∈ (OPENGL_GpuGetBackbuffer ⟨800, 600, .ARGB8888, 9, true⟩
            ⟨7, .RGBA8, 640, 480, true⟩).events →
      (true : Bool) = true) := by
  constructor
  · have h := (C6_getBackbuffer_cas_retry_preserve
      ⟨800, 600, .ARGB8888, 9, true⟩ ⟨800, 600, .ARGB8888, 9, true⟩
      ⟨7, .RGBA8, 640, 480, true⟩).2.2.2.1 (by decide) (by decide)
    exact ⟨h.2.2.1, h.2.1⟩
  · intro hne hmem
    exact (C6_getBackbuffer_cas_retry_preserve
      ⟨800, 600, .ARGB8888, 9, true⟩ ⟨800, 600, .ARGB8888, 9, true⟩
      ⟨7, .RGBA8, 640, 480, true⟩).2.2.2.2 hne hmem

/-- Claim C7 fails on the code: for a source blob with neither stage
marker, `OPENGL_GpuCreateShader` returns `-1` without setting any error
message, so there is no distinct retrievable error for the missing
marker. -/
theorem C7_counterexample :
    (OPENGL_GpuCreateShader ['b', 'a', 'd'] true).ret = -1
  ∧ (OPENGL_GpuCreateShader ['b', 'a', 'd'] true).errorSet = false := by
  decide

/-- Claim C7 as amended: `CreateShader` infers the stage from the marker
at the start of the source blob — a `// vert` prefix selects vertex
compilation and a `// frag` prefix selects fragment compilation — and
when neither marker is present it fails (returns `-1`), but without
setting a retrievable error message. -/
theorem C7_stage_marker (src : List Char) (compileOk : Bool) :
    (src.take 7 = vertMarker →
      (OPENGL_GpuCreateShader src compileOk).stage = some .vertex)
  ∧ (src.take 7 = fragMarker →
      (OPENGL_GpuCreateShader src compileOk).stage = some .fragment)
  ∧ (src.take 7 = vertMarker → compileOk = true →
      (OPENGL_GpuCreateShader src compileOk).ret = 0)
  ∧ (src.take 7 ≠ vertMarker → src.take 7 ≠ fragMarker →
      OPENGL_GpuCreateShader src compileOk
        = { ret := -1, stage := none, errorSet := false }) := by
  refine ⟨?_, ?_, ?_, ?_⟩
  · intro hv
    unfold OPENGL_GpuCreateShader
    rw [if_pos hv]
    split_ifs <;> rfl
  · intro hf
    have hne : src.take 7 ≠ vertMarker := by
      rw [hf]
      decide
    unfold OPENGL_GpuCreateShader
    rw [if_neg hne, if_pos hf]
    split_ifs <;> rfl
  · intro hv hok
    unfold OPENGL_GpuCreateShader
    rw [if_pos hv, if_pos hok]
  · intro hnv hnf
    unfold OPENGL_GpuCreateShader
    rw [if_neg hnv, if_neg hnf]

/-- Concrete instance of the amended C7: a `// vert`-marked source selects
vertex compilation and succeeds when compilation succeeds. -/
theorem C7_witness :
    (OPENGL_GpuCreateShader
      ['/', '/', ' ', 'v', 'e', 'r', 't', '\n', 'x'] true).stage
        = some ShaderStage.vertex
  ∧ (OPENGL_GpuCreateShader
      ['/', '/', ' ', 'v', 'e', 'r', 't', '\n', 'x'] true).ret = 0 :=
  ⟨(C7_stage_marker ['/', '/', ' ', 'v', 'e', 'r', 't', '\n', 'x'] true).1
      (by decide),
   (C7_stage_marker ['/', '/', ' ', 'v', 'e', 'r', 't', '\n', 'x'] true).2.2.1
      (by decide) rfl⟩

/-- Claim C8: `Present` attempts the native set-swap-interval call only
when the requested interval differs from the remembered one, remembers
the requested interval even when the native call fails, and therefore
never re-applies an unchanged requested interval on the next frame. -/
theorem C8_swap_interval_lazy_sticky (swapinterval last nativeRet r2 : Int) :
    (swapinterval = last →
      (OPENGL_GpuPresent swapinterval last nativeRet).events.filter
        isSetSwapInterval = [])
  ∧ (OPENGL_GpuPresent swapinterval last nativeRet).swap_interval = swapinterval
  ∧ (swapinterval ≠ last →
      (OPENGL_GpuPresent swapinterval last nativeRet).events.head?
        = some (.setSwapInterval swapinterval))
  ∧ (OPENGL_GpuPresent swapinterval
      (OPENGL_GpuPresent swapinterval last nativeRet).swap_interval r2).events.filter
        isSetSwapInterval = [] := by
  refine ⟨?_, ?_, ?_, ?_⟩
  · intro he
    unfold OPENGL_GpuPresent
    rw [if_neg (by simp [he])]
    simp [isSetSwapInterval]
  · unfold OPENGL_GpuPresent
    split_ifs <;> rfl
  · intro hne
    unfold OPENGL_GpuPresent
    rw [if_pos hne]
    split_ifs <;> rfl
  · have hrem : (OPENGL_GpuPresent swapinterval last nativeRet).swap_interval
        = swapinterval := by
      unfold OPENGL_GpuPresent
      split_ifs <;> rfl
    rw [hrem]
    unfold OPENGL_GpuPresent
    rw [if_neg (by simp)]
    simp [isSetSwapInterval]

/-- Concrete instance of C8: presenting with interval 1 remembered as 0
attempts the native call once and remembers 1 even though the native call
failed; presenting again with 1 attempts no native call. -/
theorem C8_witness :
    (OPENGL_GpuPresent 1 0 (-1)).swap_interval = 1
  ∧ (OPENGL_GpuPresent 1 0 (-1)).events.head? = some (.setSwapInterval 1)
  ∧ (OPENGL_GpuPresent 1 (OPENGL_GpuPresent 1 0 (-1)).swap_interval 0).events.filter
      isSetSwapInterval = [] :=
  ⟨(C8_swap_interval_lazy_sticky 1 0 (-1) 0).2.1,
   (C8_swap_interval_lazy_sticky 1 0 (-1) 0).2.2.1 (by decide),
   (C8_swap_interval_lazy_sticky 1 0 (-1) 0).2.2.2⟩

/-- Claim C9: every resource destroy is idempotent — a null stored handle
releases nothing, a non-null handle is released exactly once, the stored
handle is nulled, and a second destroy releases nothing. -/
theorem C9_destroy_idempotent (d : Nat) :
    (d = 0 →
      (OPENGL_GpuDestroyCpuBuffer d).1 = [] ∧ (OPENGL_GpuDestroyBuffer d).1 = []
      ∧ (OPENGL_GpuDestroyTexture d).1 = [] ∧ (OPENGL_GpuDestroyShader d).1 = []
      ∧ (OPENGL_GpuDestroySampler d).1 = [] ∧ (OPENGL_GpuDestroyPipeline d).1 = [])
  ∧ (d ≠ 0 →
      (OPENGL_GpuDestroyCpuBuffer d).1 = [d] ∧ (OPENGL_GpuDestroyBuffer d).1 = [d]
      ∧ (OPENGL_GpuDestroyTexture d).1 = [d] ∧ (OPENGL_GpuDestroyShader d).1 = [d]
      ∧ (OPENGL_GpuDestroySampler d).1 = [d]
      ∧ (OPENGL_GpuDestroyPipeline d).1 ≠ [])
  ∧ ((OPENGL_GpuDestroyCpuBuffer d).2 = 0 ∧ (OPENGL_GpuDestroyBuffer d).2 = 0
      ∧ (OPENGL_GpuDestroyTexture d).2 = 0 ∧ (OPENGL_GpuDestroyShader d).2 = 0
      ∧ (OPENGL_GpuDestroySampler d).2 = 0 ∧ (OPENGL_GpuDestroyPipeline d).2 = 0)
  ∧ ((OPENGL_GpuDestroyCpuBuffer (OPENGL_GpuDestroyCpuBuffer d).2).1 = []
      ∧ (OPENGL_GpuDestroyBuffer (OPENGL_GpuDestroyBuffer d).2).1 = []
      ∧ (OPENGL_GpuDestroyTexture (OPENGL_GpuDestroyTexture d).2).1 = []
      ∧ (OPENGL_GpuDestroyShader (OPENGL_GpuDestroyShader d).2).1 = []
      ∧ (OPENGL_GpuDestroySampler (OPENGL_GpuDestroySampler d).2).1 = []
      ∧ (OPENGL_GpuDestroyPipeline (OPENGL_GpuDestroyPipeline d).2).1 = []) := by
  refine ⟨?_, ?_, ?_, ?_⟩
  · intro h0
    subst h0
    refine ⟨rfl, rfl, rfl, rfl, rfl, ?_⟩
    decide
  · intro hne
    unfold OPENGL_GpuDestroyCpuBuffer OPENGL_GpuDestroyBuffer
      OPENGL_GpuDestroyTexture OPENGL_GpuDestroyShader OPENGL_GpuDestroySampler
      OPENGL_GpuDestroyPipeline
    refine ⟨by simp [hne], by simp [hne], by simp [hne], by simp [hne],
      by simp [hne], ?_⟩
    simp only [U32_MOD]
    split_ifs with h1 h2 <;> simp_all <;> omega
  · exact ⟨rfl, rfl, rfl, rfl, rfl, rfl⟩
  · exact ⟨rfl, rfl, rfl, rfl, rfl, by simp [OPENGL_GpuDestroyPipeline, U32_MOD]⟩

/-- Concrete instance of C9: destroying handle 5 releases it exactly once,
nulls the stored handle, and a second destroy releases nothing; a null
handle releases nothing. -/
theorem C9_witness :
    (OPENGL_GpuDestroyBuffer 5).1 = [5]
  ∧ (OPENGL_GpuDestroyBuffer 5).2 = 0
  ∧ (OPENGL_GpuDestroyBuffer (OPENGL_GpuDestroyBuffer 5).2).1 = []
  ∧ (OPENGL_GpuDestroyTexture 0).1 = [] :=
  ⟨((C9_destroy_idempotent 5).2.1 (by decide)).2.1,
   (C9_destroy_idempotent 5).2.2.1.2.1,
   (C9_destroy_idempotent 5).2.2.2.2.1,
   ((C9_destroy_idempotent 0).1 rfl).2.2.1⟩

/-- Claim C10: `SetRenderPassVertexBuffer` / `SetRenderPassFragmentBuffer`
record `size = buflen - offset` with no bounds check: under
`offset ≤ buflen` the bound range is exactly the tail of the buffer from
`offset` to its end, and for `offset > buflen` the unsigned subtraction
wraps modulo `2^32` instead of failing. -/
theorem C10_setBuffer_size_wraps (buflen offset index buffer : Nat)
    (hb : buflen < U32_MOD) (ho : offset < U32_MOD) :
    (offset ≤ buflen →
      (OPENGL_GpuSetRenderPassVertexBuffer buflen offset index buffer).size
        = buflen - offset)
  ∧ (buflen < offset →
      (OPENGL_GpuSetRenderPassVertexBuffer buflen offset index buffer).size
        = buflen + U32_MOD - offset)
  ∧ OPENGL_GpuSetRenderPassFragmentBuffer buflen offset index buffer
      = OPENGL_GpuSetRenderPassVertexBuffer buflen offset index buffer
  ∧ (OPENGL_GpuSetRenderPassVertexBuffer buflen offset index buffer).offset = offset
  ∧ (OPENGL_GpuSetRenderPassVertexBuffer buflen offset index buffer).buffer
      = buffer := by
  unfold U32_MOD at hb ho
  refine ⟨?_, ?_, rfl, rfl, rfl⟩
  · intro hle
    simp only [OPENGL_GpuSetRenderPassVertexBuffer, u32sub, U32_MOD]
    omega
  · intro hlt
    simp only [OPENGL_GpuSetRenderPassVertexBuffer, u32sub, U32_MOD]
    omega

/-- Concrete instance of C10: with `buflen = 10`, `offset = 3` the bound
size is the 7-byte tail; with `offset = 12` the size wraps to
`2^32 - 2`. -/
theorem C10_witness :
    (OPENGL_GpuSetRenderPassVertexBuffer 10 3 0 1).size = 7
  ∧ (OPENGL_GpuSetRenderPassVertexBuffer 10 12 0 1).size = 4294967294 := by
  constructor
  · have h := (C10_setBuffer_size_wraps 10 3 0 1 (by decide) (by decide)).1
      (by decide)
    simpa using h
  · have h := (C10_setBuffer_size_wraps 10 12 0 1 (by decide) (by decide)).2.1
      (by decide)
    simpa using h

end SDLGpuGL
